import Mathlib

/-!
Shallow embedding of the dialog-routing and admin-state engine of
`Support/support_bot.py` (and its persistence helpers), together with
theorems settling the specification's claims about it.

Python dictionaries (`admin_tags`, `admin_levels`, `active_dialogs`,
`one_time_passwords`, `admin_active_status`) are modelled as association
lists with unique keys; dictionary update, lookup and deletion are the
`dictInsert`, `dictLookup`, `dictErase` functions below.  Outbound side
effects (a `save_state()` database commit, a `bot.send_message`, a
`bot.edit_message_text`) are recorded as an `Event` trace in the order the
source performs them.  Timestamps are seconds as integers; the source's
`(datetime.now() - issued).total_seconds()` becomes integer subtraction.
-/

/-- Lookup in an association list: `d.get(k)` / `d[k]` on a Python dict. -/
def dictLookup {α β : Type} [DecidableEq α] (k : α) : List (α × β) → Option β
  | [] => none
  | p :: ps => if p.1 = k then some p.2 else dictLookup k ps

/-- Update-or-add on an association list: `d[k] = v` on a Python dict
(replaces the existing entry in place, else appends). -/
def dictInsert {α β : Type} [DecidableEq α] (k : α) (v : β) :
    List (α × β) → List (α × β)
  | [] => [(k, v)]
  | p :: ps => if p.1 = k then (k, v) :: ps else p :: dictInsert k v ps

/-- Deletion on an association list: `del d[k]` on a Python dict. -/
def dictErase {α β : Type} [DecidableEq α] (k : α) :
    List (α × β) → List (α × β)
  | [] => []
  | p :: ps => if p.1 = k then dictErase k ps else p :: dictErase k ps

/-- The process-wide mutable state of `support_bot.py` (module globals
`admin_tags`, `admin_levels`, `active_dialogs`, `one_time_passwords`,
`admin_active_status`; source lines 59-63). -/
structure BotState where
  admin_tags : List (Int × String)
  admin_levels : List (Int × Int)
  active_dialogs : List (Int × Int)
  one_time_passwords : List (String × Int)
  admin_active_status : List (Int × Bool)
deriving DecidableEq, Repr

/-- Outbound side effects, in source order: `persist` is a database commit
(`save_state()` or the direct commit in `set_tag_command`); `send` is
`bot.send_message` / `safe_send_message`; `edit` is `bot.edit_message_text`. -/
inductive Event
  | persist
  | send (chatId : Int)
  | edit (chatId : Int)
deriving DecidableEq, Repr

/-- `true` on the events that are outbound notifications (anything that is
not a database commit). -/
def Event.isNotify : Event → Bool
  | .persist => false
  | .send _ => true
  | .edit _ => true

/-- `true` when no outbound notification occurs before the first database
commit of the trace. -/
def persistPrecedesNotify : List Event → Bool
  | [] => true
  | .persist :: _ => true
  | e :: rest => !e.isNotify && persistPrecedesNotify rest

/-- Outcome of the `#tag` branch of `handle_message`. -/
inductive TagClaimResult
  | adminInactive
  | adminBusy
  | claimed (adminId : Int)
  | adminNotFound
deriving DecidableEq, Repr

/-- Python's `str.lower()` as character-wise lowering of the string's
characters (the admin tags compared with it are ASCII hashtag names). -/
def strLower (s : String) : String := ⟨s.data.map Char.toLower⟩

/-- The tag-resolution loop of `handle_message` (source lines 373-384):
first admin in `admin_tags` whose tag lower-cases to the request. -/
def findByTag (requested : String) : List (Int × String) → Option Int
  | [] => none
  | p :: ps => if strLower p.2 = requested then some p.1 else findByTag requested ps

/-- The `message.startswith('#')` branch of `handle_message` for a
non-admin sender (source lines 368-416): resolve the tag, reply if the
admin is away or busy, otherwise `active_dialogs[selected_admin] = chat_id`,
`save_state()`, then notify the client and the admin. -/
def handleHashtag (s : BotState) (chatId : Int) (msgTag : String) :
    TagClaimResult × BotState × List Event :=
  let requested := strLower msgTag
  match findByTag requested s.admin_tags with
  | none => (.adminNotFound, s, [.send chatId])
  | some adminId =>
    if (dictLookup adminId s.admin_active_status).getD true = false then
      (.adminInactive, s, [.send chatId])
    else if (dictLookup adminId s.active_dialogs).isSome then
      (.adminBusy, s, [.send chatId])
    else
      (.claimed adminId,
       { s with active_dialogs := dictInsert adminId chatId s.active_dialogs },
       [.persist, .send chatId, .send adminId])

/-- Outcome of the `take_client_` button branch. -/
inductive TakeResult
  | alreadyClaimed
  | taken
deriving DecidableEq, Repr

/-- The `take_client_<clientId>` branch of `button_callback` (source lines
1085-1114): if the client is already a value of `active_dialogs`, edit the
broadcast message and stop; otherwise `active_dialogs[user_id] = client_id`,
edit the broadcast message and notify the client.  The source performs no
`save_state()` call and no check that the pressing admin is free. -/
def takeClient (s : BotState) (adminId clientId : Int) :
    TakeResult × BotState × List Event :=
  if clientId ∈ s.active_dialogs.map Prod.snd then
    (.alreadyClaimed, s, [.edit adminId])
  else
    (.taken,
     { s with active_dialogs := dictInsert adminId clientId s.active_dialogs },
     [.edit adminId, .send clientId])

/-- Outcome of the `close_dialog` button branch. -/
inductive CloseResult
  | confirmPrompt
  | noActiveDialog
deriving DecidableEq, Repr

/-- The `close_dialog` branch of `button_callback` (source lines 1116-1137):
show a confirmation prompt when the admin has an active dialog, else edit
the message to the no-active-dialogs error.  Never mutates state. -/
def closeDialog (s : BotState) (adminId : Int) :
    CloseResult × BotState × List Event :=
  if (dictLookup adminId s.active_dialogs).isSome then
    (.confirmPrompt, s, [.edit adminId])
  else
    (.noActiveDialog, s, [.edit adminId])

/-- The `confirm_close` branch of `button_callback` (source lines 1139-1158):
`del active_dialogs[user_id]`, notify the client, edit the admin's message.
When the admin has no dialog the branch silently does nothing.  The source
performs no `save_state()` call. -/
def confirmClose (s : BotState) (adminId : Int) : BotState × List Event :=
  match dictLookup adminId s.active_dialogs with
  | some clientId =>
    ({ s with active_dialogs := dictErase adminId s.active_dialogs },
     [.send clientId, .edit adminId])
  | none => (s, [])

/-- Outcome of `transfer_client`. -/
inductive TransferResult
  | noActiveDialog
  | targetBusy
  | transferred (clientId : Int)
deriving DecidableEq, Repr

/-- `transfer_client` (source lines 1228-1303): error if the initiator has
no dialog; error if the target already has one; otherwise
`del active_dialogs[user_id]`, `active_dialogs[target] = client_id`,
`save_state()`, then notify client, target admin, and initiator. -/
def transfer_client (s : BotState) (adminId targetId : Int) :
    TransferResult × BotState × List Event :=
  match dictLookup adminId s.active_dialogs with
  | none => (.noActiveDialog, s, [.edit adminId])
  | some clientId =>
    if (dictLookup targetId s.active_dialogs).isSome then
      (.targetBusy, s, [.edit adminId, .edit adminId])
    else
      (.transferred clientId,
       { s with active_dialogs :=
           dictInsert targetId clientId (dictErase adminId s.active_dialogs) },
       [.persist, .send clientId, .send targetId, .edit adminId])

/-- Outcome of `set_tag_command`. -/
inductive SetTagResult
  | success
  | expiredPassword
  | invalidPassword
deriving DecidableEq, Repr

/-- `set_tag_command` (source lines 757-822): with a known password, if at
most 86400 seconds elapsed since issuance, set the tag, level 1 and active
flag for the caller, delete the password, commit to the database, then send
the success message; with a known but expired password, delete it and send
the expiry message; with an unknown password, send the error message.  The
source checks neither tag uniqueness nor whether the caller is already an
admin. -/
def set_tag_command (s : BotState) (userId : Int) (password tag : String)
    (now : Int) : SetTagResult × BotState × List Event :=
  match dictLookup password s.one_time_passwords with
  | some issuedAt =>
    if now - issuedAt ≤ 86400 then
      (.success,
       { s with
           admin_tags := dictInsert userId tag s.admin_tags,
           admin_levels := dictInsert userId 1 s.admin_levels,
           admin_active_status := dictInsert userId true s.admin_active_status,
           one_time_passwords := dictErase password s.one_time_passwords },
       [.persist, .send userId])
    else
      (.expiredPassword,
       { s with one_time_passwords := dictErase password s.one_time_passwords },
       [.send userId])
  | none => (.invalidPassword, s, [.send userId])

/-- The `generate_password` branch of `button_callback` (source lines
1060-1071): record a freshly generated one-time password with its issue
time (only reachable for a level-2 admin; the password value itself is a
random token, passed in here). -/
def generate_password (s : BotState) (actorId : Int) (password : String)
    (now : Int) : BotState :=
  if dictLookup actorId s.admin_levels = some 2 then
    { s with one_time_passwords := dictInsert password now s.one_time_passwords }
  else s

/-- The assignment-table invariant of the claims: no client id appears as
the value of two distinct admin keys of `active_dialogs`. -/
def distinctClients (s : BotState) : Prop :=
  (s.active_dialogs.map Prod.snd).Nodup

instance (s : BotState) : Decidable (distinctClients s) := by
  unfold distinctClients
  infer_instance

/-! ### Interleaving model of two concurrent `take_client_` presses

The dispatcher runs every handler on a worker pool (`Updater(...,
workers=8)` with `run_async=True`), and no lock is taken anywhere in the
source, so the `if client_id in active_dialogs.values()` check and the
`active_dialogs[user_id] = client_id` write of the `take_client_` branch
are two separately scheduled atomic steps of each handler thread. -/

/-- One thread running the check-then-set sequence of the `take_client_`
branch for a fixed client: `checked` records that the membership test
passed; `result` records completion (`true` = claim succeeded, `false` =
observed the client-already-claimed error). -/
structure ClaimThread where
  adminId : Int
  checked : Bool
  result : Option Bool
deriving DecidableEq, Repr

/-- A thread at the start of the `take_client_` handler. -/
def ClaimThread.start (adminId : Int) : ClaimThread :=
  ⟨adminId, false, none⟩

/-- One atomic step of a claim thread against the shared `active_dialogs`
table: first the `client_id in active_dialogs.values()` test, then the
`active_dialogs[user_id] = client_id` write. -/
def stepThread (clientId : Int) (dialogs : List (Int × Int)) (t : ClaimThread) :
    List (Int × Int) × ClaimThread :=
  match t.result, t.checked with
  | some _, _ => (dialogs, t)
  | none, false =>
      if clientId ∈ dialogs.map Prod.snd then
        (dialogs, { t with result := some false })
      else
        (dialogs, { t with checked := true })
  | none, true =>
      (dictInsert t.adminId clientId dialogs, { t with result := some true })

/-- Shared state of the two-thread race: the `active_dialogs` table and
each thread's progress. -/
structure RaceState where
  dialogs : List (Int × Int)
  t1 : ClaimThread
  t2 : ClaimThread
deriving DecidableEq, Repr

/-- Run the two claim threads under a schedule: `true` steps thread 1,
`false` steps thread 2. -/
def runSchedule (clientId : Int) : List Bool → RaceState → RaceState
  | [], st => st
  | b :: rest, st =>
      if b then
        let p := stepThread clientId st.dialogs st.t1
        runSchedule clientId rest { st with dialogs := p.1, t1 := p.2 }
      else
        let p := stepThread clientId st.dialogs st.t2
        runSchedule clientId rest { st with dialogs := p.1, t2 := p.2 }

/-! ### Backup rotation (`DatabaseConnection._create_backup`, `init_database`)

The backup directory is modelled as the list of backup file names (all
ending in `.db`); `sorted(...)` is `List.insertionSort (· ≤ ·)` on the
names, and `backups[:-5]` removal leaves the last five of the sorted
listing.  Backup names embed a `%Y%m%d_%H%M%S` timestamp, so the
lexicographic file-name order used by the source is the age order. -/

/-- `DatabaseConnection._create_backup` (source lines 471-484): when the
database file exists, copy it into the backup directory under a
timestamped name, then delete all but the last 5 of the sorted listing.
Returns the backup names that remain. -/
def create_backup (dbExists : Bool) (backupName : String)
    (backups : List String) : List String :=
  if dbExists then
    let all := List.insertionSort (· ≤ ·) (backupName :: backups)
    all.drop (all.length - 5)
  else backups

/-- The backup names `_create_backup` deletes (the `backups[:-5]` loop). -/
def create_backup_removed (dbExists : Bool) (backupName : String)
    (backups : List String) : List String :=
  if dbExists then
    let all := List.insertionSort (· ≤ ·) (backupName :: backups)
    all.take (all.length - 5)
  else []

/-- Storage-level steps of `init_database`, in source order. -/
inductive DbEvent
  | backup
  | openDb
deriving DecidableEq, Repr

/-- The storage-level step order of `init_database` (source lines 551-559):
`db._create_backup()` runs when the durable file exists, and only then is
`sqlite3.connect(DB_PATH)` called. -/
def init_database_events (dbExists : Bool) : List DbEvent :=
  (if dbExists then [DbEvent.backup] else []) ++ [DbEvent.openDb]

/-! ### Concrete reachable states -/

/-- The state at process start: only the seeded level-2 admin
(`admin_levels = {LEVEL2_ADMIN_ID: 2}`, source line 60), with id 999
standing for `LEVEL2_ADMIN_ID`. -/
def initialState : BotState :=
  { admin_tags := [], admin_levels := [(999, 2)], active_dialogs := [],
    one_time_passwords := [], admin_active_status := [] }

/-- Reachable state: admin 999 issued password `pw1`; user 1 redeemed it
with tag `alice`. -/
def exampleState1 : BotState :=
  (set_tag_command (generate_password initialState 999 "pw1" 0) 1 "pw1" "alice" 10).2.1

/-- Reachable state: on top of `exampleState1`, admin 999 issued `pw2`
and user 2 redeemed it with tag `bob`. -/
def exampleState2 : BotState :=
  (set_tag_command (generate_password exampleState1 999 "pw2" 20) 2 "pw2" "bob" 30).2.1

/-- Reachable state: on top of `exampleState2`, admin 1 pressed the
take-client button for client 100, so `active_dialogs = {1: 100}`. -/
def exampleBusyState : BotState :=
  (takeClient exampleState2 1 100).2.1

/-- Reachable state: admin 999 issued `q1` and user 1 redeemed it with tag
`sam`. -/
def dupTagState1 : BotState :=
  (set_tag_command (generate_password initialState 999 "q1" 0) 1 "q1" "sam" 10).2.1

/-- Reachable state: on top of `dupTagState1`, admin 999 issued `q2` and
user 2 redeemed it with the same tag `sam`. -/
def dupTagState2 : BotState :=
  (set_tag_command (generate_password dupTagState1 999 "q2" 20) 2 "q2" "sam" 30).2.1

/-! ### Association-list lemmas -/

theorem dictLookup_dictInsert_self {α β : Type} [DecidableEq α] (k : α) (v : β)
    (l : List (α × β)) : dictLookup k (dictInsert k v l) = some v := by
  induction l with
  | nil => simp [dictInsert, dictLookup]
  | cons p ps ih =>
    by_cases h : p.1 = k
    · simp [dictInsert, h, dictLookup]
    · simp [dictInsert, h, dictLookup, ih]

theorem dictLookup_dictInsert_ne {α β : Type} [DecidableEq α] {a k : α}
    (h : a ≠ k) (v : β) (l : List (α × β)) :
    dictLookup a (dictInsert k v l) = dictLookup a l := by
  have hk : ¬(k = a) := fun hh => h hh.symm
  induction l with
  | nil => simp [dictInsert, dictLookup, hk]
  | cons p ps ih =>
    by_cases hpk : p.1 = k
    · have he : dictInsert k v (p :: ps) = (k, v) :: ps := by
        simp [dictInsert, hpk]
      have hpa : ¬(p.1 = a) := fun hh => h (hh ▸ hpk)
      rw [he]
      simp [dictLookup, hk, hpa]
    · have he : dictInsert k v (p :: ps) = p :: dictInsert k v ps := by
        simp [dictInsert, hpk]
      rw [he]
      by_cases hpa : p.1 = a
      · simp [dictLookup, hpa]
      · simp [dictLookup, hpa, ih]

theorem dictLookup_dictErase_self {α β : Type} [DecidableEq α] (k : α)
    (l : List (α × β)) : dictLookup k (dictErase k l) = none := by
  induction l with
  | nil => simp [dictErase, dictLookup]
  | cons p ps ih =>
    by_cases h : p.1 = k
    · have he : dictErase k (p :: ps) = dictErase k ps := by
        simp [dictErase, h]
      rw [he]
      exact ih
    · have he : dictErase k (p :: ps) = p :: dictErase k ps := by
        simp [dictErase, h]
      rw [he]
      simp [dictLookup, h, ih]

theorem dictLookup_dictErase_ne {α β : Type} [DecidableEq α] {a k : α}
    (h : a ≠ k) (l : List (α × β)) :
    dictLookup a (dictErase k l) = dictLookup a l := by
  induction l with
  | nil => simp [dictErase]
  | cons p ps ih =>
    by_cases hpk : p.1 = k
    · have he : dictErase k (p :: ps) = dictErase k ps := by
        simp [dictErase, hpk]
      have hpa : ¬(p.1 = a) := fun hh => h (hh ▸ hpk)
      rw [he, ih]
      simp [dictLookup, hpa]
    · have he : dictErase k (p :: ps) = p :: dictErase k ps := by
        simp [dictErase, hpk]
      rw [he]
      by_cases hpa : p.1 = a
      · simp [dictLookup, hpa]
      · simp [dictLookup, hpa, ih]

theorem mem_values_dictInsert {α β : Type} [DecidableEq α] {x v : β} {k : α} :
    ∀ {l : List (α × β)}, x ∈ (dictInsert k v l).map Prod.snd →
      x = v ∨ x ∈ l.map Prod.snd := by
  intro l
  induction l with
  | nil =>
    intro hx
    simp [dictInsert] at hx
    exact Or.inl hx
  | cons p ps ih =>
    intro hx
    by_cases h : p.1 = k
    · have he : dictInsert k v (p :: ps) = (k, v) :: ps := by
        simp [dictInsert, h]
      rw [he] at hx
      simp only [List.map_cons, List.mem_cons] at hx
      rcases hx with hx | hx
      · exact Or.inl hx
      · exact Or.inr (by simp only [List.map_cons, List.mem_cons]; exact Or.inr hx)
    · have he : dictInsert k v (p :: ps) = p :: dictInsert k v ps := by
        simp [dictInsert, h]
      rw [he] at hx
      simp only [List.map_cons, List.mem_cons] at hx
      rcases hx with hx | hx
      · exact Or.inr (by simp only [List.map_cons, List.mem_cons]; exact Or.inl hx)
      · rcases ih hx with hh | hh
        · exact Or.inl hh
        · exact Or.inr (by simp only [List.map_cons, List.mem_cons]; exact Or.inr hh)

theorem mem_values_dictInsert_self {α β : Type} [DecidableEq α] (k : α) (v : β)
    (l : List (α × β)) : v ∈ (dictInsert k v l).map Prod.snd := by
  induction l with
  | nil => simp [dictInsert]
  | cons p ps ih =>
    by_cases h : p.1 = k
    · have he : dictInsert k v (p :: ps) = (k, v) :: ps := by
        simp [dictInsert, h]
      rw [he]
      simp
    · have he : dictInsert k v (p :: ps) = p :: dictInsert k v ps := by
        simp [dictInsert, h]
      rw [he]
      simp only [List.map_cons, List.mem_cons]
      exact Or.inr ih

theorem nodup_values_dictInsert {α β : Type} [DecidableEq α] {v : β} {k : α}
    {l : List (α × β)} (hv : v ∉ l.map Prod.snd)
    (hnd : (l.map Prod.snd).Nodup) :
    ((dictInsert k v l).map Prod.snd).Nodup := by
  induction l with
  | nil => simp [dictInsert]
  | cons p ps ih =>
    simp only [List.map_cons] at hnd hv
    rcases List.nodup_cons.mp hnd with ⟨hp2, hps⟩
    have hv1 : v ≠ p.2 := fun hh => hv (by simp [hh])
    have hv2 : v ∉ ps.map Prod.snd := fun hh => hv (List.mem_cons_of_mem _ hh)
    by_cases h : p.1 = k
    · have he : dictInsert k v (p :: ps) = (k, v) :: ps := by
        simp [dictInsert, h]
      rw [he]
      simp only [List.map_cons, List.nodup_cons]
      exact ⟨hv2, hps⟩
    · have he : dictInsert k v (p :: ps) = p :: dictInsert k v ps := by
        simp [dictInsert, h]
      rw [he]
      simp only [List.map_cons, List.nodup_cons]
      refine ⟨?_, ih hv2 hps⟩
      intro hmem
      rcases mem_values_dictInsert hmem with hh | hh
      · exact hv1 hh.symm
      · exact hp2 hh

/-! ### C1 -/

/-- C1 counterexample: in the reachable state `exampleBusyState` (client
100 is held by admin 1, distinct client values), client 100 sends `#bob`;
the tag-based claim succeeds and assigns client 100 to admin 2 as well, so
the resulting `active_dialogs` has client 100 under two distinct admin
keys.  The source's tag branch never checks whether the sending client
already appears as a value. -/
theorem c1_tag_claim_duplicates_client :
    distinctClients exampleBusyState ∧
    (handleHashtag exampleBusyState 100 "bob").1 = TagClaimResult.claimed 2 ∧
    (handleHashtag exampleBusyState 100 "bob").2.1.active_dialogs
      = [(1, 100), (2, 100)] ∧
    ¬ distinctClients (handleHashtag exampleBusyState 100 "bob").2.1 := by
  refine ⟨by decide, by decide, by decide, by decide⟩

/-- C1 (amended): the button claim preserves pairwise-distinct client
values, and the tag-based claim preserves them provided the claiming
client does not already appear as a value of `active_dialogs` (the source
performs no such check, so the proviso is necessary). -/
theorem c1_claims_preserve_distinct_clients (s : BotState) :
    (∀ a c, distinctClients s → distinctClients (takeClient s a c).2.1) ∧
    (∀ chatId msgTag, distinctClients s →
      chatId ∉ s.active_dialogs.map Prod.snd →
      distinctClients (handleHashtag s chatId msgTag).2.1) := by
  constructor
  · intro a c hd
    unfold takeClient
    by_cases hmem : c ∈ s.active_dialogs.map Prod.snd
    · simp only [if_pos hmem]
      exact hd
    · simp only [if_neg hmem]
      exact nodup_values_dictInsert hmem hd
  · intro chatId msgTag hd hmem
    unfold handleHashtag
    cases hfind : findByTag (strLower msgTag) s.admin_tags with
    | none => simpa [hfind] using hd
    | some adminId =>
      by_cases hstat : (dictLookup adminId s.admin_active_status).getD true = false
      · simp only [hfind, if_pos hstat]
        exact hd
      · simp only [hfind, if_neg hstat]
        by_cases hbusy : (dictLookup adminId s.active_dialogs).isSome
        · simp only [if_pos hbusy]
          exact hd
        · simp only [if_neg hbusy]
          exact nodup_values_dictInsert hmem hd

/-- C1 (amended) witness: at the concrete reachable state
`exampleBusyState`, a button claim of fresh client 200 by admin 2 and a
tag claim of `#bob` by fresh client 300 both leave the client values
pairwise distinct. -/
theorem c1_claims_preserve_distinct_clients_witness :
    distinctClients (takeClient exampleBusyState 2 200).2.1 ∧
    distinctClients (handleHashtag exampleBusyState 300 "bob").2.1 :=
  ⟨(c1_claims_preserve_distinct_clients exampleBusyState).1 2 200 (by decide),
   (c1_claims_preserve_distinct_clients exampleBusyState).2 300 "bob"
     (by decide) (by decide)⟩

/-! ### C2 -/

/-- C2: evaluation at the failing input.  `set_tag_command` performs no
tag-uniqueness check at all, so user 2's registration with the tag `sam`
already held by admin 1 succeeds (instead of failing with `TagTaken`), and
the reachable state `dupTagState2` has two distinct admins with the same
tag even under exact (hence also case-insensitive) comparison — contrary
to the claim and to the source's own `tag TEXT UNIQUE NOT NULL` schema
constraint. -/
theorem c2_duplicate_tag_registration_succeeds :
    (set_tag_command (generate_password dupTagState1 999 "q2" 20) 2 "q2" "sam" 30).1
      = SetTagResult.success ∧
    dictLookup 1 dupTagState2.admin_tags = some "sam" ∧
    dictLookup 2 dupTagState2.admin_tags = some "sam" ∧
    ¬ (dupTagState2.admin_tags.map (fun p => strLower p.2)).Nodup := by
  refine ⟨by decide, by decide, by decide, by decide⟩

/-! ### C3 -/

/-- C3 counterexample: in the reachable state `exampleBusyState`, admin 1
already holds client 100, yet pressing the take-client button for fresh
client 200 succeeds and changes the table (overwriting the prior
assignment) instead of failing with `AdminBusy` and leaving the table
unchanged: the button path performs no admin-busy check. -/
theorem c3_busy_admin_button_claim_succeeds :
    (dictLookup 1 exampleBusyState.active_dialogs).isSome = true ∧
    (takeClient exampleBusyState 1 200).1 = TakeResult.taken ∧
    (takeClient exampleBusyState 1 200).2.1.active_dialogs = [(1, 200)] ∧
    (takeClient exampleBusyState 1 200).2.1 ≠ exampleBusyState := by
  refine ⟨by decide, by decide, by decide, by decide⟩

/-- C3 (amended): the failure checks each path actually performs leave the
table unchanged: the tag-based claim fails with the admin-busy reply when
the selected admin already has an assignment, and the button claim fails
with the client-already-claimed reply when the client already appears as a
value; the button path checks nothing about the admin and the tag path
checks nothing about the client. -/
theorem c3_claim_failures_leave_state_unchanged (s : BotState) :
    (∀ chatId msgTag adminId,
      findByTag (strLower msgTag) s.admin_tags = some adminId →
      ¬((dictLookup adminId s.admin_active_status).getD true = false) →
      (dictLookup adminId s.active_dialogs).isSome →
      handleHashtag s chatId msgTag = (.adminBusy, s, [.send chatId])) ∧
    (∀ adminId clientId,
      clientId ∈ s.active_dialogs.map Prod.snd →
      takeClient s adminId clientId = (.alreadyClaimed, s, [.edit adminId])) := by
  constructor
  · intro chatId msgTag adminId hfind hstat hbusy
    unfold handleHashtag
    simp only [hfind, if_neg hstat, if_pos hbusy]
  · intro adminId clientId hmem
    unfold takeClient
    simp only [if_pos hmem]

/-- C3 (amended) witness: at `exampleBusyState`, client 200's `#alice`
request fails with the admin-busy reply and leaves the state unchanged,
and admin 2's button claim of the already-claimed client 100 fails and
leaves the state unchanged. -/
theorem c3_claim_failures_leave_state_unchanged_witness :
    handleHashtag exampleBusyState 200 "alice"
      = (TagClaimResult.adminBusy, exampleBusyState, [Event.send 200]) ∧
    takeClient exampleBusyState 2 100
      = (TakeResult.alreadyClaimed, exampleBusyState, [Event.edit 2]) :=
  ⟨(c3_claim_failures_leave_state_unchanged exampleBusyState).1 200 "alice" 1
      (by decide) (by decide) (by decide),
   (c3_claim_failures_leave_state_unchanged exampleBusyState).2 2 100 (by decide)⟩

/-! ### C4 -/

/-- C4 counterexample: at the reachable state `exampleState2`, admin 1's
button claim of client 100 mutates the assignment table, sends outbound
notifications (the edited broadcast message and the client notice), yet
its event trace contains no database commit at all — the `take_client_`
branch never calls `save_state()`, so the mutation is not persisted before
(or after) the notifications. -/
theorem c4_button_claim_notifies_without_persist :
    (takeClient exampleState2 1 100).2.1 ≠ exampleState2 ∧
    ((takeClient exampleState2 1 100).2.2.any (fun e => e.isNotify)) = true ∧
    Event.persist ∉ (takeClient exampleState2 1 100).2.2 ∧
    persistPrecedesNotify (takeClient exampleState2 1 100).2.2 = false := by
  refine ⟨by decide, by decide, by decide, by decide⟩

/-- C4 (amended): for the tag-based claim and for transfer, every mutation
of the assignment table is persisted (the `save_state()` commit event)
before any outbound notification is sent; the button claim and the release
(dialog close), by contrast, mutate the table and notify without any
persist step in their handlers. -/
theorem c4_persist_ordering (s : BotState) :
    (∀ chatId msgTag, (handleHashtag s chatId msgTag).2.1 ≠ s →
      persistPrecedesNotify (handleHashtag s chatId msgTag).2.2 = true) ∧
    (∀ a b, (transfer_client s a b).2.1 ≠ s →
      persistPrecedesNotify (transfer_client s a b).2.2 = true) ∧
    (∀ a c, Event.persist ∉ (takeClient s a c).2.2) ∧
    (∀ a, Event.persist ∉ (confirmClose s a).2) := by
  refine ⟨?_, ?_, ?_, ?_⟩
  · intro chatId msgTag hne
    unfold handleHashtag at hne ⊢
    cases hfind : findByTag (strLower msgTag) s.admin_tags with
    | none => simp [hfind] at hne
    | some adminId =>
      by_cases hstat : (dictLookup adminId s.admin_active_status).getD true = false
      · simp [hfind, hstat] at hne
      · by_cases hbusy : (dictLookup adminId s.active_dialogs).isSome
        · simp [hfind, hstat, hbusy] at hne
        · simp [hfind, hstat, hbusy, persistPrecedesNotify]
  · intro a b hne
    unfold transfer_client at hne ⊢
    cases hl : dictLookup a s.active_dialogs with
    | none => simp [hl] at hne
    | some c =>
      by_cases hb : (dictLookup b s.active_dialogs).isSome
      · simp [hl, hb] at hne
      · simp [hl, hb, persistPrecedesNotify]
  · intro a c
    unfold takeClient
    by_cases hmem : c ∈ s.active_dialogs.map Prod.snd
    · simp [hmem]
    · simp [hmem]
  · intro a
    unfold confirmClose
    cases hl : dictLookup a s.active_dialogs with
    | none => simp
    | some c => simp

/-- C4 (amended) witness: at `exampleState2`, the tag claim `#alice` by
client 100 and the transfer of `exampleBusyState`'s client from admin 1 to
admin 2 both persist before notifying, while button claim and dialog close
traces contain no persist event. -/
theorem c4_persist_ordering_witness :
    persistPrecedesNotify (handleHashtag exampleState2 100 "alice").2.2 = true ∧
    persistPrecedesNotify (transfer_client exampleBusyState 1 2).2.2 = true ∧
    Event.persist ∉ (takeClient exampleState2 1 100).2.2 ∧
    Event.persist ∉ (confirmClose exampleBusyState 1).2 :=
  ⟨(c4_persist_ordering exampleState2).1 100 "alice" (by decide),
   (c4_persist_ordering exampleBusyState).2.1 1 2 (by decide),
   (c4_persist_ordering exampleState2).2.2.1 1 100,
   (c4_persist_ordering exampleBusyState).2.2.2 1⟩

/-! ### C5 -/

/-- C5: `transfer_client` fails with the no-active-dialog reply when the
initiator has no assignment and with the target-busy reply when the target
already has one, leaving the state unchanged in both cases; on success it
removes the initiator's entry, gives the target the same client, leaves
every other registry untouched, and emits the single `save_state()` commit
of the whole table before the three notifications. -/
theorem c5_transfer_correct (s : BotState) (a b : Int) :
    (dictLookup a s.active_dialogs = none →
      transfer_client s a b = (.noActiveDialog, s, [.edit a])) ∧
    (∀ c, dictLookup a s.active_dialogs = some c →
      (dictLookup b s.active_dialogs).isSome →
      transfer_client s a b = (.targetBusy, s, [.edit a, .edit a])) ∧
    (∀ c, dictLookup a s.active_dialogs = some c →
      dictLookup b s.active_dialogs = none →
      (transfer_client s a b).1 = .transferred c ∧
      dictLookup b (transfer_client s a b).2.1.active_dialogs = some c ∧
      dictLookup a (transfer_client s a b).2.1.active_dialogs = none ∧
      (transfer_client s a b).2.1.admin_tags = s.admin_tags ∧
      (transfer_client s a b).2.1.admin_levels = s.admin_levels ∧
      (transfer_client s a b).2.1.admin_active_status = s.admin_active_status ∧
      (transfer_client s a b).2.2
        = [Event.persist, Event.send c, Event.send b, Event.edit a]) := by
  refine ⟨?_, ?_, ?_⟩
  · intro hl
    unfold transfer_client
    simp [hl]
  · intro c hl hb
    unfold transfer_client
    simp [hl, hb]
  · intro c hl hb
    have hab : a ≠ b := by
      intro h
      rw [h, hb] at hl
      exact Option.noConfusion hl
    have hres : transfer_client s a b =
        (.transferred c,
         { s with active_dialogs :=
             dictInsert b c (dictErase a s.active_dialogs) },
         [.persist, .send c, .send b, .edit a]) := by
      simp only [transfer_client, hl, hb, Option.isSome_none,
        Bool.false_eq_true, if_false]
    rw [hres]
    refine ⟨rfl, ?_, ?_, rfl, rfl, rfl, rfl⟩
    · exact dictLookup_dictInsert_self b c _
    · rw [dictLookup_dictInsert_ne hab, dictLookup_dictErase_self]

/-- C5 witness: at `exampleBusyState` the transfer of client 100 from
admin 1 to free admin 2 succeeds, routes 100 to admin 2, and leaves no
entry for admin 1. -/
theorem c5_transfer_correct_witness :
    (transfer_client exampleBusyState 1 2).1 = TransferResult.transferred 100 ∧
    dictLookup 2 (transfer_client exampleBusyState 1 2).2.1.active_dialogs
      = some 100 ∧
    dictLookup 1 (transfer_client exampleBusyState 1 2).2.1.active_dialogs
      = none ∧
    (transfer_client exampleBusyState 1 2).2.2
      = [Event.persist, Event.send 100, Event.send 2, Event.edit 1] := by
  have h := (c5_transfer_correct exampleBusyState 1 2).2.2 100 (by decide) (by decide)
  exact ⟨h.1, h.2.1, h.2.2.1, h.2.2.2.2.2.2⟩

/-! ### C6 -/

/-- C6: redeeming a one-time password issued more than 24 hours (86400
seconds) earlier makes `set_tag_command` report expiry, delete the
password, and create no admin record (tags, levels and active flags are
untouched); an unknown token is rejected with no state change at all. -/
theorem c6_password_expiry (s : BotState) (u : Int) (p tag : String)
    (now issued : Int) :
    (dictLookup p s.one_time_passwords = some issued →
      now - issued > 86400 →
      (set_tag_command s u p tag now).1 = .expiredPassword ∧
      dictLookup p (set_tag_command s u p tag now).2.1.one_time_passwords
        = none ∧
      (set_tag_command s u p tag now).2.1.admin_tags = s.admin_tags ∧
      (set_tag_command s u p tag now).2.1.admin_levels = s.admin_levels ∧
      (set_tag_command s u p tag now).2.1.admin_active_status
        = s.admin_active_status ∧
      (set_tag_command s u p tag now).2.1.active_dialogs
        = s.active_dialogs) ∧
    (dictLookup p s.one_time_passwords = none →
      set_tag_command s u p tag now = (.invalidPassword, s, [.send u])) := by
  constructor
  · intro hp hexp
    have hgt : ¬(now - issued ≤ 86400) := by omega
    have hres : set_tag_command s u p tag now =
        (.expiredPassword,
         { s with one_time_passwords := dictErase p s.one_time_passwords },
         [.send u]) := by
      simp only [set_tag_command, hp, if_neg hgt]
    rw [hres]
    exact ⟨rfl, dictLookup_dictErase_self p _, rfl, rfl, rfl, rfl⟩
  · intro hp
    unfold set_tag_command
    simp [hp]

/-- C6 witness: password `P` issued at time 0 and redeemed at time 90000
(25 hours later) is reported expired and deleted, with no admin record
created, and the unknown token `zz` is rejected unchanged. -/
theorem c6_password_expiry_witness :
    ((set_tag_command (generate_password initialState 999 "P" 0) 5 "P" "sam" 90000).1
        = SetTagResult.expiredPassword ∧
      dictLookup "P" (set_tag_command (generate_password initialState 999 "P" 0)
        5 "P" "sam" 90000).2.1.one_time_passwords = none ∧
      (set_tag_command (generate_password initialState 999 "P" 0)
        5 "P" "sam" 90000).2.1.admin_tags = initialState.admin_tags) ∧
    set_tag_command initialState 5 "zz" "sam" 0
      = (SetTagResult.invalidPassword, initialState, [Event.send 5]) := by
  have h1 := (c6_password_expiry (generate_password initialState 999 "P" 0)
    5 "P" "sam" 90000 0).1 (by decide) (by decide)
  have h2 := (c6_password_expiry initialState 5 "zz" "sam" 0 0).2 (by decide)
  exact ⟨⟨h1.1, h1.2.1, h1.2.2.1⟩, h2⟩

/-! ### C7 -/

/-- Helper: the close-dialog button for an admin with no active dialog
replies with the no-active-dialogs error and changes nothing. -/
theorem closeDialog_of_none {t : BotState} {a : Int}
    (h : dictLookup a t.active_dialogs = none) :
    closeDialog t a = (.noActiveDialog, t, [.edit a]) := by
  unfold closeDialog
  rw [h]
  rfl

theorem confirmClose_of_none {t : BotState} {a : Int}
    (h : dictLookup a t.active_dialogs = none) :
    confirmClose t a = (t, []) := by
  unfold confirmClose
  rw [h]

/-- C7: release is idempotent in its error.  When an admin holds a client,
the close-dialog flow first prompts for confirmation and the confirmation
removes the assignment; pressing close-dialog again afterwards yields the
no-active-dialogs reply with the state unchanged, a repeated confirmation
is a silent no-op, and the admin tags, levels and active flags are
untouched throughout. -/
theorem c7_release_idempotent (s : BotState) (a c : Int)
    (h : dictLookup a s.active_dialogs = some c) :
    closeDialog s a = (.confirmPrompt, s, [.edit a]) ∧
    closeDialog (confirmClose s a).1 a
      = (.noActiveDialog, (confirmClose s a).1, [.edit a]) ∧
    confirmClose (confirmClose s a).1 a = ((confirmClose s a).1, []) ∧
    (confirmClose s a).1.admin_tags = s.admin_tags ∧
    (confirmClose s a).1.admin_levels = s.admin_levels ∧
    (confirmClose s a).1.admin_active_status = s.admin_active_status := by
  have hsome : (dictLookup a s.active_dialogs).isSome := by rw [h]; rfl
  have hs1 : (confirmClose s a).1
      = { s with active_dialogs := dictErase a s.active_dialogs } := by
    unfold confirmClose
    rw [h]
  have hnone : dictLookup a (confirmClose s a).1.active_dialogs = none := by
    rw [hs1]
    exact dictLookup_dictErase_self a _
  refine ⟨?_, closeDialog_of_none hnone, confirmClose_of_none hnone, ?_, ?_, ?_⟩
  · unfold closeDialog
    rw [if_pos hsome]
  · rw [hs1]
  · rw [hs1]
  · rw [hs1]

/-- C7 witness: at `exampleBusyState` (admin 1 holds client 100), a
confirmed close removes the dialog; the second close attempt gets the
no-active-dialogs reply and changes nothing. -/
theorem c7_release_idempotent_witness :
    closeDialog (confirmClose exampleBusyState 1).1 1
      = (CloseResult.noActiveDialog, (confirmClose exampleBusyState 1).1,
         [Event.edit 1]) ∧
    confirmClose (confirmClose exampleBusyState 1).1 1
      = ((confirmClose exampleBusyState 1).1, []) :=
  ⟨(c7_release_idempotent exampleBusyState 1 100 (by decide)).2.1,
   (c7_release_idempotent exampleBusyState 1 100 (by decide)).2.2.1⟩

/-! ### C8 -/

/-- C8 counterexample: the source takes no lock at all (the handlers run
on the dispatcher's worker pool), so the two atomic steps of each admin's
check-then-set are freely interleaved.  Under the interleaving check 1,
check 2, set 1, set 2 from an empty table, both admins' claims of client
100 succeed — not exactly one — and the table ends with the duplicated
client. -/
theorem c8_interleaved_claims_both_succeed :
    (runSchedule 100 [true, false, true, false]
        { dialogs := [], t1 := .start 1, t2 := .start 2 }).t1.result
      = some true ∧
    (runSchedule 100 [true, false, true, false]
        { dialogs := [], t1 := .start 1, t2 := .start 2 }).t2.result
      = some true ∧
    (runSchedule 100 [true, false, true, false]
        { dialogs := [], t1 := .start 1, t2 := .start 2 }).dialogs
      = [(1, 100), (2, 100)] := by
  refine ⟨by decide, by decide, by decide⟩

/-- C8 (amended): when the two claim attempts on the same unclaimed client
are serialized — each admin's check-then-set runs to completion before the
other starts — exactly one succeeds and the other observes the
client-already-claimed failure, whichever admin goes first.  The code has
no mutation lock, so this serialization is not guaranteed (see the
interleaving above). -/
theorem c8_serialized_claims_exactly_one_succeeds
    (d : List (Int × Int)) (a1 a2 c : Int) (h : c ∉ d.map Prod.snd) :
    ((runSchedule c [true, true, false, false]
        { dialogs := d, t1 := .start a1, t2 := .start a2 }).t1.result
      = some true ∧
     (runSchedule c [true, true, false, false]
        { dialogs := d, t1 := .start a1, t2 := .start a2 }).t2.result
      = some false) ∧
    ((runSchedule c [false, false, true, true]
        { dialogs := d, t1 := .start a1, t2 := .start a2 }).t2.result
      = some true ∧
     (runSchedule c [false, false, true, true]
        { dialogs := d, t1 := .start a1, t2 := .start a2 }).t1.result
      = some false) := by
  have hstep1 : ∀ a, stepThread c d (ClaimThread.start a) =
      (d, { adminId := a, checked := true, result := none }) := by
    intro a
    simp [stepThread, ClaimThread.start, h]
  have hstep2 : ∀ a, stepThread c d { adminId := a, checked := true, result := (none : Option Bool) } =
      (dictInsert a c d, { adminId := a, checked := true, result := some true }) := by
    intro a
    simp [stepThread]
  have hstep3 : ∀ a b, stepThread c (dictInsert b c d) (ClaimThread.start a) =
      (dictInsert b c d, { adminId := a, checked := false, result := some false }) := by
    intro a b
    have hm : c ∈ (dictInsert b c d).map Prod.snd := mem_values_dictInsert_self b c d
    simp [stepThread, ClaimThread.start, hm]
  have hstep4 : ∀ a dl, stepThread c dl { adminId := a, checked := false, result := some false } =
      (dl, { adminId := a, checked := false, result := some false }) := by
    intro a dl
    simp [stepThread]
  constructor
  · simp only [runSchedule, if_pos, if_neg, hstep1, hstep2, hstep3, hstep4]
    simp [hstep1, hstep2, hstep3, hstep4]
  · simp only [runSchedule]
    simp [hstep1, hstep2, hstep3, hstep4]

/-- C8 (amended) witness: from the empty table with admins 1 and 2 and
client 100, each serialized order makes the first admin's claim succeed
and the other fail. -/
theorem c8_serialized_claims_exactly_one_succeeds_witness :
    (runSchedule 100 [true, true, false, false]
        { dialogs := [], t1 := .start 1, t2 := .start 2 }).t1.result
      = some true ∧
    (runSchedule 100 [true, true, false, false]
        { dialogs := [], t1 := .start 1, t2 := .start 2 }).t2.result
      = some false :=
  (c8_serialized_claims_exactly_one_succeeds [] 1 2 100 (by decide)).1

/-! ### C9 -/

/-- C9: on initialization with a prior durable file present, the backup
copy happens before the file is opened (`init_database_events`), and after
the rotation at most 5 backup names remain; the kept names and the deleted
names partition the sorted listing, every deleted name precedes (in the
filename/timestamp order) every kept name — oldest deleted first — and the
listing after the copy is exactly the old backups plus the new one. -/
theorem c9_backup_rotation (backupName : String) (backups : List String) :
    (create_backup true backupName backups).length ≤ 5 ∧
    (∀ x ∈ create_backup_removed true backupName backups,
      ∀ y ∈ create_backup true backupName backups, x ≤ y) ∧
    create_backup_removed true backupName backups
        ++ create_backup true backupName backups
      = List.insertionSort (· ≤ ·) (backupName :: backups) ∧
    (List.insertionSort (· ≤ ·) (backupName :: backups)).Perm
      (backupName :: backups) ∧
    init_database_events true = [DbEvent.backup, DbEvent.openDb] := by
  have hcb : create_backup true backupName backups
      = (List.insertionSort (· ≤ ·) (backupName :: backups)).drop
          ((List.insertionSort (· ≤ ·) (backupName :: backups)).length - 5) := rfl
  have hcr : create_backup_removed true backupName backups
      = (List.insertionSort (· ≤ ·) (backupName :: backups)).take
          ((List.insertionSort (· ≤ ·) (backupName :: backups)).length - 5) := rfl
  have hsorted : (List.insertionSort (· ≤ ·) (backupName :: backups)).Sorted
      (· ≤ ·) := List.sorted_insertionSort _ _
  refine ⟨?_, ?_, ?_, List.perm_insertionSort _ _, rfl⟩
  · rw [hcb, List.length_drop]
    omega
  · intro x hx y hy
    rw [hcr] at hx
    rw [hcb] at hy
    have hps := hsorted
    rw [← List.take_append_drop
      ((List.insertionSort (· ≤ ·) (backupName :: backups)).length - 5)
      (List.insertionSort (· ≤ ·) (backupName :: backups))] at hps
    exact (List.pairwise_append.mp hps).2.2 x hx y hy
  · rw [hcb, hcr]
    exact List.take_append_drop _ _

/-! ### C10 -/

/-- C10: `set_tag_command` never checks whether the caller is already a
registered admin: for a caller already holding any admin level (level 2
included), redeeming a fresh valid one-time password succeeds, overwrites
the caller's tag, resets the level to 1, marks the caller active, and
deletes the password. -/
theorem c10_reregistration_resets_level (s : BotState) (u : Int)
    (p tag : String) (now issued lvl : Int)
    (hp : dictLookup p s.one_time_passwords = some issued)
    (hfresh : now - issued ≤ 86400)
    (hlvl : dictLookup u s.admin_levels = some lvl) :
    (set_tag_command s u p tag now).1 = .success ∧
    dictLookup u (set_tag_command s u p tag now).2.1.admin_tags = some tag ∧
    dictLookup u (set_tag_command s u p tag now).2.1.admin_levels = some 1 ∧
    dictLookup u (set_tag_command s u p tag now).2.1.admin_active_status
      = some true ∧
    dictLookup p (set_tag_command s u p tag now).2.1.one_time_passwords
      = none := by
  have hres : set_tag_command s u p tag now =
      (.success,
       { s with
           admin_tags := dictInsert u tag s.admin_tags,
           admin_levels := dictInsert u 1 s.admin_levels,
           admin_active_status := dictInsert u true s.admin_active_status,
           one_time_passwords := dictErase p s.one_time_passwords },
       [.persist, .send u]) := by
    simp only [set_tag_command, hp, if_pos hfresh]
  rw [hres]
  exact ⟨rfl, dictLookup_dictInsert_self u tag _,
    dictLookup_dictInsert_self u 1 _, dictLookup_dictInsert_self u true _,
    dictLookup_dictErase_self p _⟩

/-- C10 witness: the seeded level-2 admin 999 redeems a fresh password
issued to itself; the registration succeeds and demotes it to level 1. -/
theorem c10_reregistration_resets_level_witness :
    dictLookup 999 (generate_password initialState 999 "np" 0).admin_levels
      = some 2 ∧
    (set_tag_command (generate_password initialState 999 "np" 0)
        999 "np" "boss" 100).1 = SetTagResult.success ∧
    dictLookup 999 (set_tag_command (generate_password initialState 999 "np" 0)
        999 "np" "boss" 100).2.1.admin_levels = some 1 := by
  have h := c10_reregistration_resets_level
    (generate_password initialState 999 "np" 0) 999 "np" "boss" 100 0 2
    (by decide) (by decide) (by decide)
  exact ⟨by decide, h.1, h.2.2.1⟩
